import Mathlib

/-!
# Verification of the start subround of the BLS consensus engine

Shallow embedding of `consensus/spos/bls/subroundStartRound.go`.

Modelling conventions:
* Go `time.Time` and `time.Duration` values are modelled as `Int`
  (nanosecond instants / nanosecond counts); Go's `time.Duration`
  arithmetic is `int64` arithmetic, so the budget computation
  `TimeDuration() * Duration(pct) / 100` is integer multiplication
  followed by Go's truncating division (`Int.tdiv`).
* Collaborator interfaces (rounder, bootstrapper, blockchain handler,
  nodes coordinator, multi-signer, indexer) are fields of an `Env`
  record: each interface call is the application of the corresponding
  function field.  The subround's own configuration
  (`processingThresholdPercentage`, subround id, own public key) also
  lives in `Env` since it is immutable during a round.
* Side effects that the claims talk about — invocations of
  `GetNextConsensusGroup`, `MultiSigner().Reset`, `RemainingTime`,
  `SaveRoundInfo`, app-status metric updates, and the asynchronous
  `executeStoredMessages` dispatch — are collected in an `Effects`
  trace returned next to the updated state.
* Byte slices (`[]byte` public keys after Go's `string` conversion,
  random seeds) are modelled as `String` (keys) and `List Nat` (seed
  bytes).
-/

/-- A block header as the start subround observes it: epoch (a Go
`uint32`, held as a `Nat` below `2^32`) and the randomness seed bytes
returned by `GetRandSeed()`. -/
structure Header where
  randSeed : List Nat
  epoch : Nat
deriving Repr, DecidableEq

/-- Per-subround status, mirroring `spos.SsNotFinished` / `spos.SsFinished`. -/
inductive SubroundStatus where
  | SsNotFinished
  | SsFinished
deriving Repr, DecidableEq

/-- One app-status-handler metric update (`SetStringValue` or `Increment`). -/
inductive MetricEvent where
  | setString (key value : String)
  | increment (key : String)
deriving Repr, DecidableEq

/-- The metric key constants live in the `core` package, which is not part
of the consensus sources; they are modelled as distinct opaque strings
named after the Go identifiers. -/
def MetricConsensusRoundState : String := "MetricConsensusRoundState"

def MetricConsensusState : String := "MetricConsensusState"

def MetricCountLeader : String := "MetricCountLeader"

def MetricCountConsensus : String := "MetricCountConsensus"

/-- Argument tuple of one `GetNextConsensusGroup` invocation:
`(randomSeed, uint64(sr.RoundIndex), shardId, epoch)`. -/
structure SelectionArgs where
  randSeed : List Nat
  round : Nat
  shardId : Nat
  epoch : Nat
deriving Repr, DecidableEq

/-- The `indexer.RoundInfo` record submitted to `SaveRoundInfo`. -/
structure RoundInfo where
  index : Nat
  signersIndexes : List Nat
  blockWasProposed : Bool
  shardId : Nat
  timestamp : Int
deriving Repr, DecidableEq

/-- Trace of the collaborator invocations performed by one start-phase
operation, in program order within each list. -/
structure Effects where
  selectionCalls : List SelectionArgs := []
  resetCalls : List (List String × Nat) := []
  remainingTimeCalls : List (Int × Int) := []
  saveRoundInfoCalls : List RoundInfo := []
  metricCalls : List MetricEvent := []
  storedMessagesRuns : Nat := 0
deriving Repr, DecidableEq

/-- The empty trace. -/
def Effects.empty : Effects := {}

/-- Traces compose by concatenating each call list in program order. -/
def Effects.append (a b : Effects) : Effects :=
  { selectionCalls := a.selectionCalls ++ b.selectionCalls
    resetCalls := a.resetCalls ++ b.resetCalls
    remainingTimeCalls := a.remainingTimeCalls ++ b.remainingTimeCalls
    saveRoundInfoCalls := a.saveRoundInfoCalls ++ b.saveRoundInfoCalls
    metricCalls := a.metricCalls ++ b.metricCalls
    storedMessagesRuns := a.storedMessagesRuns + b.storedMessagesRuns }

instance : Append Effects := ⟨Effects.append⟩

/-- Go's `int64 → uint64` conversion (two's-complement reinterpretation). -/
def uint64OfInt (i : Int) : Nat := (i % (18446744073709551616 : Int)).toNat

/-- Go's `int → uint16` conversion (truncation to the low 16 bits). -/
def uint16OfInt (i : Int) : Nat := (i % (65536 : Int)).toNat

/-- Go's `uint32` decrement `e - 1`: wraps at zero. -/
def goUint32SubOne (e : Nat) : Nat := (e + 4294967295) % 4294967296

/-- The collaborators and immutable configuration visible to the start
subround during one round.  Each field models one method of the consensus
core's collaborator handlers (spec §6). -/
structure Env where
  /-- `BootStrapper().ShouldSync()`. -/
  shouldSync : Bool
  /-- `Blockchain().GetCurrentBlockHeader()` (`nil` ↦ `none`). -/
  currentBlockHeader : Option Header
  /-- `Blockchain().GetGenesisHeader()` (`nil` ↦ `none`). -/
  genesisHeader : Option Header
  /-- `SelfPubKey()`. -/
  selfPubKey : String
  /-- `ShardCoordinator().SelfId()`. -/
  shardId : Nat
  /-- `Rounder().Index()`. -/
  rounderIndex : Int
  /-- `Rounder().TimeStamp()` as an abstract instant. -/
  rounderTimeStamp : Int
  /-- `Rounder().TimeDuration()` in nanoseconds. -/
  rounderTimeDuration : Int
  /-- `Rounder().RemainingTime(startTime, maxTime)`: a signed duration. -/
  remainingTime : Int → Int → Int
  /-- `GetNextConsensusGroup(randomSeed, round, shardId, coordinator, epoch)`:
  ordered validator public keys or an error. -/
  getNextConsensusGroup : List Nat → Nat → Nat → Nat → Except String (List String)
  /-- `MultiSigner().Reset(pubKeys, index)`: `none` means success. -/
  multiSignerReset : List String → Nat → Option String
  /-- `NodesCoordinator().GetValidatorsIndexes(pubKeys, epoch)`. -/
  getValidatorsIndexes : List String → Nat → Except String (List Nat)
  /-- `NodesCoordinator().GetAllValidatorsPublicKeys(epoch)`: per-shard
  lists of validator public keys (a missing shard key yields `[]`, like a
  Go map's zero value). -/
  getAllValidatorsPublicKeys : Nat → Except String (Nat → List String)
  /-- Whether `sr.indexer == nil` (the pointer-nil test). -/
  indexerIsNil : Bool
  /-- `sr.indexer.IsNilIndexer()`: the is-no-op capability query. -/
  indexerIsNilIndexer : Bool
  /-- The integer that `SelfConsensusGroupIndex` returns alongside its
  not-a-member error; the code outside these sources fixes it, so it is
  kept abstract here. -/
  selfIndexOnErr : Int
  /-- The subround's configured `processingThresholdPercentage`. -/
  processingThresholdPercentage : Int
  /-- `sr.Current()`: the id of this subround. -/
  current : Int

/-- The mutable consensus state the start subround touches: cancellation
flag, recorded round index and timestamp, the consensus group, per-subround
statuses and the eligible-validator set. -/
structure ConsensusState where
  roundCanceled : Bool
  roundIndex : Int
  roundTimeStamp : Int
  consensusGroup : List String
  status : Int → SubroundStatus
  eligibleList : Finset String

/-- Modelled from the spec: `spos.ConsensusState.ResetConsensusState` is
not under the given sources; per spec §4.1, `reset_for_new_round` clears
the group, the cancellation flag and every per-subround status. -/
def ResetConsensusState (st : ConsensusState) : ConsensusState :=
  { st with
    roundCanceled := false
    consensusGroup := []
    status := fun _ => SubroundStatus.SsNotFinished }

/-- Modelled from the spec: `spos.ConsensusState.SetStatus` stores the
status of one subround (spec §4.1 `set_status(id, status)`). -/
def SetStatus (st : ConsensusState) (id : Int) (s : SubroundStatus) : ConsensusState :=
  { st with status := fun j => if j = id then s else st.status j }

/-- Modelled from the spec: `spos.ConsensusState.IsSubroundFinished`
reports whether the given subround's status is `SsFinished`
(spec §4.1 `is_subround_finished(id)`). -/
def IsSubroundFinished (st : ConsensusState) (id : Int) : Bool :=
  decide (st.status id = SubroundStatus.SsFinished)

/-- Modelled from the spec: `spos.ConsensusState.GetLeader` is not under
the given sources; per spec §4.3 the leader is the first element of the
ordered group and an empty (or never-derived) group is an error. -/
def GetLeader (st : ConsensusState) : Except String String :=
  match st.consensusGroup with
  | [] => Except.error "empty consensus group"
  | leader :: _ => Except.ok leader

/-- Modelled from the spec: `spos.ConsensusState.SelfConsensusGroupIndex`
is not under the given sources; per spec §4.1 it returns the local
validator's position in the group, or a not-a-member error.  The integer
value accompanying the error is the abstract `Env.selfIndexOnErr`. -/
def SelfConsensusGroupIndex (env : Env) (st : ConsensusState) : Int × Option String :=
  match st.consensusGroup.findIdx? (fun pk => pk = env.selfPubKey) with
  | some i => ((i : Int), none)
  | none => (env.selfIndexOnErr, some "self not found in consensus group")

/-- Modelled from the spec: `spos.ConsensusState.SetEligibleList` stores
the shard's eligible-validator set (spec §3 EligibleSet). -/
def SetEligibleList (st : ConsensusState) (l : Finset String) : ConsensusState :=
  { st with eligibleList := l }

/-- The header the code works with: the current block header, or the
genesis header when there is no current one yet. -/
def headerOrGenesis (env : Env) : Option Header :=
  match env.currentBlockHeader with
  | some h => some h
  | none => env.genesisHeader

/-- `doStartRoundJob` (subroundStartRound.go lines 72–77): resets the
consensus state and records the rounder's index and timestamp. -/
def doStartRoundJob (env : Env) (st : ConsensusState) :
    Bool × ConsensusState × Effects :=
  let st1 := ResetConsensusState st
  let st2 := { st1 with
    roundIndex := env.rounderIndex
    roundTimeStamp := env.rounderTimeStamp }
  (true, st2, Effects.empty)

/-- The argument tuple handed to the selection collaborator for a given
header: its randomness seed, `uint64(sr.RoundIndex)`, the own shard id
and the header's epoch. -/
def selArgs (env : Env) (st : ConsensusState) (currentHeader : Header) :
    SelectionArgs :=
  { randSeed := currentHeader.randSeed
    round := uint64OfInt st.roundIndex
    shardId := env.shardId
    epoch := currentHeader.epoch }

/-- `generateNextConsensusGroup` (lines 206–243): resolve the header,
read its randomness seed, invoke the selection collaborator and store the
resulting ordered group.  Returns (error, state, trace). -/
def generateNextConsensusGroup (env : Env) (st : ConsensusState) :
    Option String × ConsensusState × Effects :=
  match headerOrGenesis env with
  | none => (some "nil header", st, Effects.empty)
  | some currentHeader =>
    match env.getNextConsensusGroup currentHeader.randSeed
        (uint64OfInt st.roundIndex) env.shardId currentHeader.epoch with
    | Except.error e =>
        (some e, st, { selectionCalls := [selArgs env st currentHeader] })
    | Except.ok nextConsensusGroup =>
        (none, { st with consensusGroup := nextConsensusGroup },
          { selectionCalls := [selArgs env st currentHeader] })

/-- `indexRoundIfNeeded` (lines 176–204): skipped entirely when the
indexer is Go-`nil` or answers the is-no-op capability query positively;
otherwise it fetches the signers' indexes and fires `SaveRoundInfo`.
When both headers are `none` the Go code would dereference a nil header;
that point is unreachable from `initCurrentRound` (group derivation has
already failed by then), and is modelled as a no-op. -/
def indexRoundIfNeeded (env : Env) (st : ConsensusState) (pubKeys : List String) :
    Effects :=
  if env.indexerIsNil || env.indexerIsNilIndexer then Effects.empty else
  match headerOrGenesis env with
  | none => Effects.empty
  | some currentHeader =>
    match env.getValidatorsIndexes pubKeys currentHeader.epoch with
    | Except.error _e => Effects.empty
    | Except.ok signersIndexes =>
        { saveRoundInfoCalls :=
            [{ index := uint64OfInt env.rounderIndex
               signersIndexes := signersIndexes
               blockWasProposed := false
               shardId := env.shardId
               timestamp := st.roundTimeStamp }] }

/-- `initCurrentRound` (lines 96–174), step by step in source order:
bootstrap check, group derivation, leader lookup and metrics, optional
round indexing, self-index lookup and metrics, multi-signer reset, and
the `processingThresholdPercentage` time-budget check that either cancels
the round or marks the subround finished and dispatches the stored
messages. -/
def initCurrentRound (env : Env) (st : ConsensusState) :
    Bool × ConsensusState × Effects :=
  if env.shouldSync then (false, st, Effects.empty) else
  let eff0 : Effects :=
    { metricCalls := [MetricEvent.setString MetricConsensusRoundState ""] }
  let gr := generateNextConsensusGroup env st
  let st1 := gr.2.1
  let eff1 := gr.2.2
  match gr.1 with
  | some _e =>
      (false, { st1 with roundCanceled := true }, eff0 ++ eff1)
  | none =>
    match GetLeader st1 with
    | Except.error _e =>
        (false, { st1 with roundCanceled := true }, eff0 ++ eff1)
    | Except.ok leader =>
      let effLeader : Effects :=
        if leader = env.selfPubKey then
          { metricCalls :=
              [MetricEvent.increment MetricCountLeader,
               MetricEvent.setString MetricConsensusRoundState "proposed",
               MetricEvent.setString MetricConsensusState "proposer"] }
        else Effects.empty
      let pubKeys := st1.consensusGroup
      let effIdx := indexRoundIfNeeded env st1 pubKeys
      let si := SelfConsensusGroupIndex env st1
      let effSelf : Effects :=
        match si.2 with
        | some _ =>
            { metricCalls :=
                [MetricEvent.setString MetricConsensusState "not in consensus group"] }
        | none =>
            { metricCalls :=
                [MetricEvent.increment MetricCountConsensus,
                 MetricEvent.setString MetricConsensusState "participant"] }
      let effReset : Effects := { resetCalls := [(pubKeys, uint16OfInt si.1)] }
      let effA := eff0 ++ eff1 ++ effLeader ++ effIdx ++ effSelf ++ effReset
      match env.multiSignerReset pubKeys (uint16OfInt si.1) with
      | some _e => (false, { st1 with roundCanceled := true }, effA)
      | none =>
        let startTime := st1.roundTimeStamp
        let maxTime :=
          Int.tdiv (env.rounderTimeDuration * env.processingThresholdPercentage) 100
        let effB := effA ++ ({ remainingTimeCalls := [(startTime, maxTime)] } : Effects)
        if env.remainingTime startTime maxTime < 0 then
          (false, { st1 with roundCanceled := true }, effB)
        else
          (true, SetStatus st1 env.current SubroundStatus.SsFinished,
            effB ++ ({ storedMessagesRuns := 1 } : Effects))

/-- `doStartRoundConsensusCheck` (lines 80–94): short-circuits on a
canceled round, then on an already-finished subround, and otherwise runs
`initCurrentRound`. -/
def doStartRoundConsensusCheck (env : Env) (st : ConsensusState) :
    Bool × ConsensusState × Effects :=
  if st.roundCanceled then (false, st, Effects.empty) else
  if IsSubroundFinished st env.current then (true, st, Effects.empty) else
  initCurrentRound env st

/-- `changeEpoch` (lines 258–284): fetch the per-shard validator keys for
`epoch - 1` (Go `uint32` decrement) and `epoch`; on either failure the
eligible set is left untouched; otherwise both shard lists are poured
into one set which becomes the new eligible list. -/
def changeEpoch (env : Env) (header : Header) (st : ConsensusState) :
    ConsensusState :=
  match env.getAllValidatorsPublicKeys (goUint32SubOne header.epoch) with
  | Except.error _e => st
  | Except.ok publicKeysPrevEpoch =>
    match env.getAllValidatorsPublicKeys header.epoch with
    | Except.error _e => st
    | Except.ok publicKeysNewEpoch =>
      let shardId := env.shardId
      let afterPrev : Finset String :=
        (publicKeysPrevEpoch shardId).foldl (fun m pubKey => insert pubKey m) ∅
      let shardEligible : Finset String :=
        (publicKeysNewEpoch shardId).foldl (fun m pubKey => insert pubKey m) afterPrev
      SetEligibleList st shardEligible

/-- `EpochStartAction` (lines 252–256): the confirmed epoch-start callback
delegates to `changeEpoch`. -/
def EpochStartAction (env : Env) (header : Header) (st : ConsensusState) :
    ConsensusState :=
  changeEpoch env header st

/-- `EpochStartPrepare` (lines 247–249) only logs: no state change. -/
def EpochStartPrepare (_env : Env) (_header : Header) (st : ConsensusState) :
    ConsensusState :=
  st

/-! ## Concrete fixtures used by the witnesses and counterexamples -/

/-- A concrete current block header. -/
def hdrA : Header := { randSeed := [1, 2, 3], epoch := 5 }

/-- A concrete genesis header with a distinct seed. -/
def hdrG : Header := { randSeed := [9], epoch := 0 }

/-- A concrete two-validator consensus group. -/
def grpA : List String := ["self", "v2"]

/-- A fully concrete environment: synchronized node, 5 s rounds,
25 % processing threshold, selection succeeding with `grpA`, all
collaborators succeeding, the default no-op indexer installed. -/
def envA : Env :=
  { shouldSync := false
    currentBlockHeader := some hdrA
    genesisHeader := some hdrG
    selfPubKey := "self"
    shardId := 0
    rounderIndex := 42
    rounderTimeStamp := 100000000
    rounderTimeDuration := 5000000000
    remainingTime := fun s m => m - s
    getNextConsensusGroup := fun _ _ _ _ => Except.ok grpA
    multiSignerReset := fun _ _ => none
    getValidatorsIndexes := fun _ _ => Except.ok [0, 1]
    getAllValidatorsPublicKeys := fun e =>
      if e = 4 then Except.ok (fun _ => ["a", "b"])
      else Except.ok (fun _ => ["b", "c"])
    indexerIsNil := false
    indexerIsNilIndexer := true
    selfIndexOnErr := 0
    processingThresholdPercentage := 25
    current := 0 }

/-- A concrete fresh consensus state for round 42. -/
def stA : ConsensusState :=
  { roundCanceled := false
    roundIndex := 42
    roundTimeStamp := 100000000
    consensusGroup := []
    status := fun _ => SubroundStatus.SsNotFinished
    eligibleList := ∅ }

/-- `stA` with the cancellation flag already raised. -/
def stCanceled : ConsensusState := { stA with roundCanceled := true }

/-- `envA` whose epoch-4 validator fetch fails while the epoch-5 fetch
succeeds. -/
def envFailPrev : Env :=
  { envA with
    getAllValidatorsPublicKeys := fun e =>
      if e = 4 then Except.error "boom"
      else Except.ok (fun _ => ["b", "c"]) }

/-- `envA` whose selection collaborator returns an empty validator set. -/
def envEmptyGrp : Env :=
  { envA with getNextConsensusGroup := fun _ _ _ _ => Except.ok [] }

/-- `envA` for a node whose own key is not in the derived group. -/
def envObs : Env := { envA with selfPubKey := "outsider" }

/-- `envA` without a current block header (bootstrapping node). -/
def envNoCur : Env := { envA with currentBlockHeader := none }

/-! ## Helper lemmas -/

@[simp] theorem Effects.append_selectionCalls (a b : Effects) :
    (a ++ b).selectionCalls = a.selectionCalls ++ b.selectionCalls := rfl

@[simp] theorem Effects.append_resetCalls (a b : Effects) :
    (a ++ b).resetCalls = a.resetCalls ++ b.resetCalls := rfl

@[simp] theorem Effects.append_remainingTimeCalls (a b : Effects) :
    (a ++ b).remainingTimeCalls = a.remainingTimeCalls ++ b.remainingTimeCalls := rfl

@[simp] theorem Effects.append_saveRoundInfoCalls (a b : Effects) :
    (a ++ b).saveRoundInfoCalls = a.saveRoundInfoCalls ++ b.saveRoundInfoCalls := rfl

@[simp] theorem Effects.append_metricCalls (a b : Effects) :
    (a ++ b).metricCalls = a.metricCalls ++ b.metricCalls := rfl

@[simp] theorem Effects.append_storedMessagesRuns (a b : Effects) :
    (a ++ b).storedMessagesRuns = a.storedMessagesRuns + b.storedMessagesRuns := rfl

/-- Except for `SaveRoundInfo` submissions, `indexRoundIfNeeded` produces
no trace entries. -/
theorem indexRoundIfNeeded_only_save (env : Env) (st : ConsensusState)
    (pk : List String) :
    (indexRoundIfNeeded env st pk).selectionCalls = []
    ∧ (indexRoundIfNeeded env st pk).resetCalls = []
    ∧ (indexRoundIfNeeded env st pk).remainingTimeCalls = []
    ∧ (indexRoundIfNeeded env st pk).metricCalls = []
    ∧ (indexRoundIfNeeded env st pk).storedMessagesRuns = 0 := by
  unfold indexRoundIfNeeded
  split
  · exact ⟨rfl, rfl, rfl, rfl, rfl⟩
  · split
    · exact ⟨rfl, rfl, rfl, rfl, rfl⟩
    · split
      · exact ⟨rfl, rfl, rfl, rfl, rfl⟩
      · exact ⟨rfl, rfl, rfl, rfl, rfl⟩

/-- A positive is-no-op capability answer silences `indexRoundIfNeeded`
completely. -/
theorem indexRoundIfNeeded_noop (env : Env) (st : ConsensusState)
    (pk : List String) (h : env.indexerIsNilIndexer = true) :
    indexRoundIfNeeded env st pk = Effects.empty := by
  unfold indexRoundIfNeeded
  simp [h]

/-- Characterization of a successful group derivation. -/
theorem generateNextConsensusGroup_ok (env : Env) (st : ConsensusState)
    (hdr : Header) (grp : List String)
    (hhdr : headerOrGenesis env = some hdr)
    (hsel : env.getNextConsensusGroup hdr.randSeed (uint64OfInt st.roundIndex)
        env.shardId hdr.epoch = Except.ok grp) :
    generateNextConsensusGroup env st =
      (none, { st with consensusGroup := grp },
        ({ selectionCalls := [selArgs env st hdr] } : Effects)) := by
  unfold generateNextConsensusGroup
  rw [hhdr]
  simp [hsel]

/-- Whatever the selection collaborator answers, the one selection call
and its seed are recorded. -/
theorem generateNextConsensusGroup_selectionCalls (env : Env)
    (st : ConsensusState) (hdr : Header)
    (hhdr : headerOrGenesis env = some hdr) :
    (generateNextConsensusGroup env st).2.2.selectionCalls =
      [selArgs env st hdr] := by
  unfold generateNextConsensusGroup
  rw [hhdr]
  rcases h : env.getNextConsensusGroup hdr.randSeed (uint64OfInt st.roundIndex)
      env.shardId hdr.epoch with e | g <;> simp [h]

/-- Group derivation touches only the consensus group: every other state
field survives unchanged, and its trace holds no entries besides the
selection call. -/
theorem generateNextConsensusGroup_frame (env : Env) (st : ConsensusState) :
    (generateNextConsensusGroup env st).2.1.roundCanceled = st.roundCanceled
    ∧ (generateNextConsensusGroup env st).2.1.status = st.status
    ∧ (generateNextConsensusGroup env st).2.1.roundTimeStamp = st.roundTimeStamp
    ∧ (generateNextConsensusGroup env st).2.1.eligibleList = st.eligibleList
    ∧ (generateNextConsensusGroup env st).2.2.resetCalls = []
    ∧ (generateNextConsensusGroup env st).2.2.remainingTimeCalls = []
    ∧ (generateNextConsensusGroup env st).2.2.saveRoundInfoCalls = []
    ∧ (generateNextConsensusGroup env st).2.2.metricCalls = []
    ∧ (generateNextConsensusGroup env st).2.2.storedMessagesRuns = 0 := by
  unfold generateNextConsensusGroup
  cases headerOrGenesis env with
  | none => exact ⟨rfl, rfl, rfl, rfl, rfl, rfl, rfl, rfl, rfl⟩
  | some hdr =>
      rcases h : env.getNextConsensusGroup hdr.randSeed (uint64OfInt st.roundIndex)
          env.shardId hdr.epoch with e | g <;> simp [h]

/-- Folding `insert` over a list of keys adds exactly that list, as a
set, to the accumulator: the Go pattern of pouring a slice into a
`map[string]struct\x7b\x7d`. -/
theorem foldl_insert_eq_union (l : List String) (s : Finset String) :
    l.foldl (fun m pubKey => insert pubKey m) s = s ∪ l.toFinset := by
  induction l generalizing s with
  | nil => simp
  | cons a t ih =>
      rw [List.foldl_cons, ih, List.toFinset_cons]
      simp [Finset.insert_union, Finset.union_insert]

/-- A membership test that fails on every element yields no index. -/
theorem findIdx?_eq_none_of_not_mem (l : List String) (x : String)
    (h : x ∉ l) : l.findIdx? (fun pk => pk = x) = none := by
  induction l with
  | nil => rfl
  | cons a t ih =>
      have hax : ¬(a = x) := by
        intro hax
        exact h (hax ▸ List.mem_cons_self a t)
      have ht : x ∉ t := fun hx => h (List.mem_cons_of_mem a hx)
      rw [List.findIdx?_cons]
      simp [hax, ih ht]

/-! ## Claim theorems -/

/-- C3: for every epoch-start action in which both validator-list fetches
succeed, the eligible set stored for the local shard is exactly the set
union of the shard's validator public keys in epoch-1 (Go `uint32`
decrement of the header's epoch) and in epoch: every key of either list
is present and nothing else is. -/
theorem epochStart_eligible_union (env : Env) (header : Header)
    (st : ConsensusState) (prevKeys newKeys : Nat → List String)
    (hprev : env.getAllValidatorsPublicKeys (goUint32SubOne header.epoch) =
      Except.ok prevKeys)
    (hnew : env.getAllValidatorsPublicKeys header.epoch = Except.ok newKeys) :
    (EpochStartAction env header st).eligibleList =
      (prevKeys env.shardId).toFinset ∪ (newKeys env.shardId).toFinset := by
  unfold EpochStartAction changeEpoch
  rw [hprev, hnew]
  simp [SetEligibleList, foldl_insert_eq_union]

/-- Witness for C3: with `envA`'s fetches answering `["a","b"]` for epoch 4
and `["b","c"]` for epoch 5, the eligible set becomes their union. -/
theorem epochStart_eligible_union_witness :
    (EpochStartAction envA hdrA stA).eligibleList =
      (["a", "b"] : List String).toFinset ∪ (["b", "c"] : List String).toFinset :=
  epochStart_eligible_union envA hdrA stA (fun _ => ["a", "b"])
    (fun _ => ["b", "c"]) rfl rfl

/-- C4: if fetching the validator list for epoch-1 or for epoch fails, the
whole epoch-start reconciliation is skipped and the consensus state — in
particular the eligible set — is left exactly as it was. -/
theorem epochStart_fetch_failure_keeps_set (env : Env) (header : Header)
    (st : ConsensusState) (e : String)
    (h : env.getAllValidatorsPublicKeys (goUint32SubOne header.epoch) =
          Except.error e
       ∨ env.getAllValidatorsPublicKeys header.epoch = Except.error e) :
    EpochStartAction env header st = st := by
  unfold EpochStartAction changeEpoch
  rcases h with h | h
  · rw [h]
  · rcases hp : env.getAllValidatorsPublicKeys (goUint32SubOne header.epoch)
        with e1 | p
    · rfl
    · rw [h]

/-- Witness for C4, scenario D: the epoch-4 fetch fails while the epoch-5
fetch succeeds, and the state (hence the eligible set) is unchanged. -/
theorem epochStart_fetch_failure_keeps_set_witness :
    EpochStartAction envFailPrev hdrA stA = stA
    ∧ envFailPrev.getAllValidatorsPublicKeys hdrA.epoch =
        Except.ok (fun _ => ["b", "c"]) :=
  ⟨epochStart_fetch_failure_keeps_set envFailPrev hdrA stA "boom" (Or.inl rfl),
   rfl⟩

/-- C7: when the installed sink answers the is-no-op capability query
positively (the default nil indexer), the round-indexing step performs no
work at all, and no `SaveRoundInfo` invocation ever appears in a round
initialization's trace. -/
theorem noopSink_never_saves (env : Env) (st : ConsensusState)
    (pubKeys : List String) (h : env.indexerIsNilIndexer = true) :
    indexRoundIfNeeded env st pubKeys = Effects.empty
    ∧ (initCurrentRound env st).2.2.saveRoundInfoCalls = [] := by
  refine ⟨indexRoundIfNeeded_noop env st pubKeys h, ?_⟩
  unfold initCurrentRound
  rcases hg : generateNextConsensusGroup env st with ⟨err, st1, eff1⟩
  have h1 : eff1.saveRoundInfoCalls = [] := by
    have hf := (generateNextConsensusGroup_frame env st).2.2.2.2.2.2.1
    rw [hg] at hf
    exact hf
  by_cases hs : env.shouldSync = true
  · simp [hs, Effects.empty]
  · simp only [hs, if_false, Bool.false_eq_true, hg]
    cases err with
    | some e => simp [h1, Effects.empty]
    | none =>
        rcases hl : GetLeader st1 with e | leader
        · simp [h1, Effects.empty]
        · by_cases hld : leader = env.selfPubKey <;>
          rcases hsi : (SelfConsensusGroupIndex env st1).2 with _ | e2 <;>
          rcases hm : env.multiSignerReset st1.consensusGroup
              (uint16OfInt (SelfConsensusGroupIndex env st1).1) with _ | e3 <;>
          simp [h1, hld, hsi, hm, indexRoundIfNeeded_noop env st1 _ h,
            Effects.empty] <;>
          split <;>
          simp [h1, Effects.empty]

/-- Witness for C7: `envA` carries the default no-op indexer, and round
initialization under it submits nothing to `SaveRoundInfo`. -/
theorem noopSink_never_saves_witness :
    indexRoundIfNeeded envA stA grpA = Effects.empty
    ∧ (initCurrentRound envA stA).2.2.saveRoundInfoCalls = [] :=
  noopSink_never_saves envA stA grpA rfl

/-- C8: the randomness seed handed to validator selection is the current
block header's seed, and when no current header exists the genesis
header's seed is used instead. -/
theorem randomness_seed_source (env : Env) (st : ConsensusState) :
    (∀ h, env.currentBlockHeader = some h →
      (generateNextConsensusGroup env st).2.2.selectionCalls.map
        SelectionArgs.randSeed = [h.randSeed])
    ∧ (env.currentBlockHeader = none → ∀ g, env.genesisHeader = some g →
      (generateNextConsensusGroup env st).2.2.selectionCalls.map
        SelectionArgs.randSeed = [g.randSeed]) := by
  constructor
  · intro h hcur
    have hhdr : headerOrGenesis env = some h := by
      unfold headerOrGenesis
      rw [hcur]
    rw [generateNextConsensusGroup_selectionCalls env st h hhdr]
    rfl
  · intro hcur g hgen
    have hhdr : headerOrGenesis env = some g := by
      unfold headerOrGenesis
      rw [hcur]
      exact hgen
    rw [generateNextConsensusGroup_selectionCalls env st g hhdr]
    rfl

/-- Witness for C8: with a current header present the seed is `hdrA`'s;
with no current header it is the genesis header `hdrG`'s. -/
theorem randomness_seed_source_witness :
    (generateNextConsensusGroup envA stA).2.2.selectionCalls.map
      SelectionArgs.randSeed = [hdrA.randSeed]
    ∧ (generateNextConsensusGroup envNoCur stA).2.2.selectionCalls.map
      SelectionArgs.randSeed = [hdrG.randSeed] :=
  ⟨(randomness_seed_source envA stA).1 hdrA rfl,
   (randomness_seed_source envNoCur stA).2 rfl hdrG rfl⟩

/-- C1: the start phase's budget is `processingThresholdPercentage`
percent of the round duration (Go duration arithmetic:
`TimeDuration * pct / 100` nanoseconds), checked by one `RemainingTime`
call against the recorded round start; a negative answer cancels the
round and leaves the phase unfinished, a non-negative one marks the
phase finished and leaves the round uncanceled. -/
theorem startRound_time_budget (env : Env) (st : ConsensusState)
    (hdr : Header) (a : String) (tl : List String)
    (hsync : env.shouldSync = false)
    (hhdr : headerOrGenesis env = some hdr)
    (hsel : env.getNextConsensusGroup hdr.randSeed (uint64OfInt st.roundIndex)
        env.shardId hdr.epoch = Except.ok (a :: tl))
    (hreset : ∀ ks i, env.multiSignerReset ks i = none)
    (hcanc : st.roundCanceled = false)
    (hstat : st.status env.current = SubroundStatus.SsNotFinished) :
    (initCurrentRound env st).2.2.remainingTimeCalls =
      [(st.roundTimeStamp,
        Int.tdiv (env.rounderTimeDuration * env.processingThresholdPercentage) 100)]
    ∧ (env.remainingTime st.roundTimeStamp
          (Int.tdiv (env.rounderTimeDuration * env.processingThresholdPercentage) 100)
            < 0 →
        (initCurrentRound env st).1 = false
        ∧ (initCurrentRound env st).2.1.roundCanceled = true
        ∧ (initCurrentRound env st).2.1.status env.current ≠ SubroundStatus.SsFinished)
    ∧ (0 ≤ env.remainingTime st.roundTimeStamp
          (Int.tdiv (env.rounderTimeDuration * env.processingThresholdPercentage) 100) →
        (initCurrentRound env st).1 = true
        ∧ (initCurrentRound env st).2.1.roundCanceled = false
        ∧ (initCurrentRound env st).2.1.status env.current = SubroundStatus.SsFinished) := by
  have hg := generateNextConsensusGroup_ok env st hdr (a :: tl) hhdr hsel
  obtain ⟨hi1, hi2, hi3, hi4, hi5⟩ :=
    indexRoundIfNeeded_only_save env { st with consensusGroup := a :: tl } (a :: tl)
  refine ⟨?_, fun hrt => ?_, fun hrt => ?_⟩
  · rcases hsi : (SelfConsensusGroupIndex env
        { st with consensusGroup := a :: tl }).2 with _ | e2 <;>
    simp [initCurrentRound, hg, hsync, GetLeader, hsi, hreset, hi3,
      apply_ite Effects.remainingTimeCalls, Effects.empty] <;>
    split <;>
    simp [hi3, apply_ite Effects.remainingTimeCalls, Effects.empty]
  · simp [initCurrentRound, hg, hsync, GetLeader, hreset, hrt, hstat]
  · have hrt' : ¬ (env.remainingTime st.roundTimeStamp
        (Int.tdiv (env.rounderTimeDuration * env.processingThresholdPercentage) 100)
          < 0) := not_lt.mpr hrt
    simp [initCurrentRound, hg, hsync, GetLeader, hreset, hrt', SetStatus, hcanc]

/-- Witness for C1, scenario A: 5 s round, 25 % threshold, so a budget of
1.25 s; `envA`'s clock reports 1.15 s remaining, so the phase finishes
and the round is not canceled. -/
theorem startRound_time_budget_witness :
    (initCurrentRound envA stA).1 = true
    ∧ (initCurrentRound envA stA).2.1.roundCanceled = false
    ∧ (initCurrentRound envA stA).2.1.status envA.current =
        SubroundStatus.SsFinished :=
  (startRound_time_budget envA stA hdrA "self" ["v2"] rfl rfl rfl
    (fun _ _ => rfl) rfl rfl).2.2 (by decide)

/-- C2: with the cancellation flag raised, the start phase's Check
returns false at once with the state untouched and an empty trace; and
no start-phase operation short of the new-round reset — round
initialization or the epoch-start action — ever lowers the flag. -/
theorem cancellation_monotone (env : Env) (hdr : Header) (st : ConsensusState)
    (h : st.roundCanceled = true) :
    doStartRoundConsensusCheck env st = (false, st, Effects.empty)
    ∧ (initCurrentRound env st).2.1.roundCanceled = true
    ∧ (EpochStartAction env hdr st).roundCanceled = true := by
  refine ⟨?_, ?_, ?_⟩
  · unfold doStartRoundConsensusCheck
    rw [h]
    rfl
  · rcases hg : generateNextConsensusGroup env st with ⟨err, st1, eff1⟩
    have h1 : st1.roundCanceled = st.roundCanceled := by
      have hf := (generateNextConsensusGroup_frame env st).1
      rw [hg] at hf
      exact hf
    by_cases hs : env.shouldSync = true
    · simp [initCurrentRound, hs, h]
    · cases err with
      | some e => simp [initCurrentRound, hg, hs]
      | none =>
        rcases hl : GetLeader st1 with e | leader
        · simp [initCurrentRound, hg, hs, hl]
        · by_cases hld : leader = env.selfPubKey <;>
          rcases hsi : (SelfConsensusGroupIndex env st1).2 with _ | e2 <;>
          rcases hm : env.multiSignerReset st1.consensusGroup
              (uint16OfInt (SelfConsensusGroupIndex env st1).1) with _ | e3 <;>
          simp [initCurrentRound, hg, hs, hl, hld, hsi, hm, SetStatus, h1, h] <;>
          split <;>
          simp [SetStatus, h1, h]
  · unfold EpochStartAction changeEpoch
    rcases hp : env.getAllValidatorsPublicKeys (goUint32SubOne hdr.epoch)
        with e | p
    · exact h
    · rcases hn : env.getAllValidatorsPublicKeys hdr.epoch with e | q
      · exact h
      · simp [SetEligibleList, h]

/-- Witness for C2: a canceled round under `envA`. -/
theorem cancellation_monotone_witness :
    doStartRoundConsensusCheck envA stCanceled = (false, stCanceled, Effects.empty)
    ∧ (initCurrentRound envA stCanceled).2.1.roundCanceled = true
    ∧ (EpochStartAction envA hdrA stCanceled).roundCanceled = true :=
  cancellation_monotone envA hdrA stCanceled rfl

/-- C5: when the selection collaborator answers with an empty validator
set, round initialization fails (through the empty-group leader lookup),
the round is canceled and no multi-signer `Reset` is ever attempted. -/
theorem emptyGroup_cancels_without_reset (env : Env) (st : ConsensusState)
    (hdr : Header)
    (hsync : env.shouldSync = false)
    (hhdr : headerOrGenesis env = some hdr)
    (hsel : env.getNextConsensusGroup hdr.randSeed (uint64OfInt st.roundIndex)
        env.shardId hdr.epoch = Except.ok []) :
    (initCurrentRound env st).1 = false
    ∧ (initCurrentRound env st).2.1.roundCanceled = true
    ∧ (initCurrentRound env st).2.2.resetCalls = [] := by
  have hg := generateNextConsensusGroup_ok env st hdr [] hhdr hsel
  simp [initCurrentRound, hg, hsync, GetLeader]

/-- Witness for C5, scenario C: `envEmptyGrp`'s selection returns `[]`. -/
theorem emptyGroup_cancels_without_reset_witness :
    (initCurrentRound envEmptyGrp stA).1 = false
    ∧ (initCurrentRound envEmptyGrp stA).2.1.roundCanceled = true
    ∧ (initCurrentRound envEmptyGrp stA).2.2.resetCalls = [] :=
  emptyGroup_cancels_without_reset envEmptyGrp stA hdrA rfl rfl rfl

/-- C9: when derivation and leader lookup succeed but the own key is not
in the group, the failed membership lookup does not cancel anything:
initialization runs to completion (given the reset succeeds and time
remains) and the observer metric is emitted. -/
theorem selfNotInGroup_observer (env : Env) (st : ConsensusState)
    (hdr : Header) (a : String) (tl : List String)
    (hsync : env.shouldSync = false)
    (hhdr : headerOrGenesis env = some hdr)
    (hsel : env.getNextConsensusGroup hdr.randSeed (uint64OfInt st.roundIndex)
        env.shardId hdr.epoch = Except.ok (a :: tl))
    (hnotmem : env.selfPubKey ∉ a :: tl)
    (hreset : ∀ ks i, env.multiSignerReset ks i = none)
    (hrt : 0 ≤ env.remainingTime st.roundTimeStamp
        (Int.tdiv (env.rounderTimeDuration * env.processingThresholdPercentage) 100))
    (hcanc : st.roundCanceled = false) :
    (initCurrentRound env st).1 = true
    ∧ (initCurrentRound env st).2.1.roundCanceled = false
    ∧ MetricEvent.setString MetricConsensusState "not in consensus group"
        ∈ (initCurrentRound env st).2.2.metricCalls := by
  have hg := generateNextConsensusGroup_ok env st hdr (a :: tl) hhdr hsel
  have hfind := findIdx?_eq_none_of_not_mem (a :: tl) env.selfPubKey hnotmem
  have hsi : SelfConsensusGroupIndex env { st with consensusGroup := a :: tl } =
      (env.selfIndexOnErr, some "self not found in consensus group") := by
    unfold SelfConsensusGroupIndex
    simp [hfind]
  have hld : ¬ (a = env.selfPubKey) := by
    intro he
    subst he
    exact hnotmem (List.mem_cons_self _ _)
  have hrt' : ¬ (env.remainingTime st.roundTimeStamp
      (Int.tdiv (env.rounderTimeDuration * env.processingThresholdPercentage) 100)
        < 0) := not_lt.mpr hrt
  obtain ⟨hi1, hi2, hi3, hi4, hi5⟩ :=
    indexRoundIfNeeded_only_save env { st with consensusGroup := a :: tl } (a :: tl)
  refine ⟨?_, ?_, ?_⟩
  · simp [initCurrentRound, hg, hsync, GetLeader, hreset, hrt']
  · simp [initCurrentRound, hg, hsync, GetLeader, hreset, hrt', SetStatus, hcanc]
  · simp [initCurrentRound, hg, hsync, GetLeader, hld, hsi, hreset, hrt', SetStatus,
      hi4, Effects.empty]

/-- Witness for C9: `envObs`'s key `"outsider"` is not in `grpA`, yet the
round initializes successfully and the observer metric is emitted. -/
theorem selfNotInGroup_observer_witness :
    (initCurrentRound envObs stA).1 = true
    ∧ (initCurrentRound envObs stA).2.1.roundCanceled = false
    ∧ MetricEvent.setString MetricConsensusState "not in consensus group"
        ∈ (initCurrentRound envObs stA).2.2.metricCalls :=
  selfNotInGroup_observer envObs stA hdrA "self" ["v2"] rfl rfl rfl (by decide)
    (fun _ _ => rfl) (by decide) rfl

/-- C10: whenever derivation and leader lookup succeed, exactly one
multi-signer `Reset` is recorded, with the full group and the `uint16`
cast of whatever integer the self-index lookup returned (also when that
lookup failed); and a `Reset` error cancels the round. -/
theorem multiSigner_reset_once (env : Env) (st : ConsensusState)
    (hdr : Header) (a : String) (tl : List String)
    (hsync : env.shouldSync = false)
    (hhdr : headerOrGenesis env = some hdr)
    (hsel : env.getNextConsensusGroup hdr.randSeed (uint64OfInt st.roundIndex)
        env.shardId hdr.epoch = Except.ok (a :: tl)) :
    (initCurrentRound env st).2.2.resetCalls =
      [(a :: tl,
        uint16OfInt (SelfConsensusGroupIndex env
          { st with consensusGroup := a :: tl }).1)]
    ∧ ∀ e, env.multiSignerReset (a :: tl)
        (uint16OfInt (SelfConsensusGroupIndex env
          { st with consensusGroup := a :: tl }).1) = some e →
        (initCurrentRound env st).1 = false
        ∧ (initCurrentRound env st).2.1.roundCanceled = true := by
  have hg := generateNextConsensusGroup_ok env st hdr (a :: tl) hhdr hsel
  obtain ⟨hi1, hi2, hi3, hi4, hi5⟩ :=
    indexRoundIfNeeded_only_save env { st with consensusGroup := a :: tl } (a :: tl)
  constructor
  · rcases hsi : (SelfConsensusGroupIndex env
        { st with consensusGroup := a :: tl }).2 with _ | e2 <;>
    rcases hm : env.multiSignerReset (a :: tl)
        (uint16OfInt (SelfConsensusGroupIndex env
          { st with consensusGroup := a :: tl }).1) with _ | e3 <;>
    simp [initCurrentRound, hg, hsync, GetLeader, hsi, hm, hi2,
      apply_ite Effects.resetCalls, Effects.empty] <;>
    split <;>
    simp [hi2, apply_ite Effects.resetCalls, Effects.empty]
  · intro e he
    simp [initCurrentRound, hg, hsync, GetLeader, he]

/-- Witness for C10: under `envA` the one reset call carries `grpA` and
index 0 (the self key is first in the group). -/
theorem multiSigner_reset_once_witness :
    (initCurrentRound envA stA).2.2.resetCalls =
      [(("self" : String) :: ["v2"],
        uint16OfInt (SelfConsensusGroupIndex envA
          { stA with consensusGroup := ("self" : String) :: ["v2"] }).1)] :=
  (multiSigner_reset_once envA stA hdrA "self" ["v2"] rfl rfl rfl).1

/-- Regardless of how initialization ends, the selection call with its
seed appears exactly once in its trace (given a resolvable header and a
synchronized node). -/
theorem initCurrentRound_selectionCalls (env : Env) (st : ConsensusState)
    (hdr : Header)
    (hsync : env.shouldSync = false)
    (hhdr : headerOrGenesis env = some hdr) :
    (initCurrentRound env st).2.2.selectionCalls = [selArgs env st hdr] := by
  have hsc := generateNextConsensusGroup_selectionCalls env st hdr hhdr
  rcases hg : generateNextConsensusGroup env st with ⟨err, st1, eff1⟩
  rw [hg] at hsc
  replace hsc : eff1.selectionCalls = [selArgs env st hdr] := hsc
  obtain ⟨hi1, hi2, hi3, hi4, hi5⟩ :=
    indexRoundIfNeeded_only_save env st1 st1.consensusGroup
  cases err with
  | some e => simp [initCurrentRound, hg, hsync, hsc]
  | none =>
    rcases hl : GetLeader st1 with e | leader
    · simp [initCurrentRound, hg, hsync, hl, hsc]
    · by_cases hld : leader = env.selfPubKey <;>
      rcases hsi : (SelfConsensusGroupIndex env st1).2 with _ | e2 <;>
      rcases hm : env.multiSignerReset st1.consensusGroup
          (uint16OfInt (SelfConsensusGroupIndex env st1).1) with _ | e3 <;>
      simp [initCurrentRound, hg, hsync, hl, hld, hsi, hm, hsc, hi1,
        Effects.empty] <;>
      try (split <;> simp [hsc, hi1, Effects.empty])

/-- C6 counterexample: invoking the start subround's Job performs neither
the consensus-group derivation nor the time-budget check — its trace has
no selection call and no remaining-time query — while the same round's
Check does invoke the selection collaborator. -/
theorem job_no_derivation_cex :
    (doStartRoundJob envA stA).2.2.selectionCalls = []
    ∧ (doStartRoundJob envA stA).2.2.remainingTimeCalls = []
    ∧ (doStartRoundConsensusCheck envA stA).2.2.selectionCalls ≠ [] := by
  refine ⟨rfl, rfl, ?_⟩
  decide

/-- C6 amended: the Job only resets the consensus state and records the
round index and timestamp; it is the start subround's Check — via
`initCurrentRound` — that carries out the group derivation (and, on the
success path, the budget check) when the round is neither canceled nor
already finished. -/
theorem derivation_in_check_not_job (env : Env) (st : ConsensusState)
    (hdr : Header)
    (hcanc : st.roundCanceled = false)
    (hstat : st.status env.current = SubroundStatus.SsNotFinished)
    (hsync : env.shouldSync = false)
    (hhdr : headerOrGenesis env = some hdr) :
    doStartRoundJob env st =
      (true,
        { ResetConsensusState st with
            roundIndex := env.rounderIndex
            roundTimeStamp := env.rounderTimeStamp },
        Effects.empty)
    ∧ (doStartRoundConsensusCheck env st).2.2.selectionCalls = [selArgs env st hdr]
    ∧ (doStartRoundJob env st).2.2.selectionCalls = [] := by
  refine ⟨rfl, ?_, rfl⟩
  unfold doStartRoundConsensusCheck
  rw [hcanc]
  have hfin : IsSubroundFinished st env.current = false := by
    simp [IsSubroundFinished, hstat]
  rw [hfin]
  simp only [Bool.false_eq_true, if_false]
  exact initCurrentRound_selectionCalls env st hdr hsync hhdr

/-- Witness for the amended C6 under `envA`. -/
theorem derivation_in_check_not_job_witness :
    doStartRoundJob envA stA =
      (true,
        { ResetConsensusState stA with
            roundIndex := envA.rounderIndex
            roundTimeStamp := envA.rounderTimeStamp },
        Effects.empty)
    ∧ (doStartRoundConsensusCheck envA stA).2.2.selectionCalls =
        [selArgs envA stA hdrA]
    ∧ (doStartRoundJob envA stA).2.2.selectionCalls = [] :=
  derivation_in_check_not_job envA stA hdrA rfl rfl rfl rfl
